import Mathlib

/-!
Shallow embedding of the Love-is-the-key Unity Coefficient pipeline
(`love_is_the_key/protocol.py`, `love_is_the_key/models.py`,
`love_is_the_key/context.py`).

Python floats are modelled as exact rationals; Python `round(x, n)` and the
`%.2f` / `%.0%` format specifiers are modelled by round-half-even on ℚ.
Python `str.lower` is modelled per character by `Char.toLower` (all texts and
markers involved here are ASCII), `str.count` by non-overlapping substring
counting, and `in` by substring containment.  Python `dict` is modelled as an
association list with in-place update and append-on-new-key, matching
insertion order.
-/

/-- Model of Python `str.lower()` (ASCII case folding). -/
def lowerStr (s : String) : String := String.mk (s.data.map Char.toLower)

/-- Model of Python `sub in s` on character lists: `pat` occurs in `s`. -/
def hasSubstr (pat : List Char) : List Char → Bool
  | [] => pat.isEmpty
  | c :: cs => List.isPrefixOf pat (c :: cs) || hasSubstr pat cs

/-- Left-to-right non-overlapping occurrence scan: `skip` characters are
still to be consumed by the previously matched occurrence. -/
def countOccGo (pat : List Char) (skip : Nat) : List Char → Nat
  | [] => 0
  | c :: cs =>
    match skip with
    | Nat.succ k => countOccGo pat k cs
    | 0 =>
      if List.isPrefixOf pat (c :: cs) then
        1 + countOccGo pat (pat.length - 1) cs
      else
        countOccGo pat 0 cs

/-- Model of Python `s.count(pat)`: non-overlapping occurrences
(`s.count("")` is `len(s) + 1` in Python). -/
def countOcc (pat s : List Char) : Nat :=
  match pat with
  | [] => s.length + 1
  | _ :: _ => countOccGo pat 0 s

/-- Python `s.count(pat)` on strings. -/
def pyCount (s pat : String) : Nat := countOcc pat.data s.data

/-- Python `pat in s` on strings. -/
def pyContains (s pat : String) : Bool := hasSubstr pat.data s.data

/-- Python `dict` assignment `d[k] = v`: replace the value at an existing key
in place, else append the new pair at the end. -/
def dictSet : List (String × Nat) → String → Nat → List (String × Nat)
  | [], k, v => [(k, v)]
  | p :: ps, k, v => if p.1 = k then (k, v) :: ps else p :: dictSet ps k v

/-- Python `d.get(k)` / `d[k]`. -/
def dictLookup : List (String × Nat) → String → Option Nat
  | [], _ => none
  | p :: ps, k => if p.1 = k then some p.2 else dictLookup ps k

/-- Python `k in d`. -/
def dictHasKey (d : List (String × Nat)) (k : String) : Bool :=
  (dictLookup d k).isSome

/-- Python `sum(d.values())`. -/
def dictValuesSum (d : List (String × Nat)) : Nat := (d.map (fun p => p.2)).sum

-- The two lexicons of `protocol.py`, verbatim.

def SEPARATION_MARKERS : List String := [
  "fear", "lack", "impossible", "us versus them", "judgement",
  "crisis", "scarcity", "division", "conflict", "enemy",
  "zero-sum", "my way", "compete", "dominate", "control",
  "threat", "danger", "attack", "defend", "protect",
  "limited", "finite", "not enough", "mine", "yours",
  "separate", "isolated", "alone", "abandoned", "rejected",
  "failure", "loss", "defeat", "victim", "powerless",
  "hate", "anger", "resentment", "revenge", "punishment",
  "wrong", "bad", "evil", "sin", "guilt",
  "shame", "blame", "fault", "mistake", "error",
  "weak", "inferior", "less than", "unworthy", "inadequate",
  "impossible", "can\x27t", "won\x27t", "never", "hopeless",
  "desperate", "anxious", "worried", "stressed", "overwhelmed",
  "chaos", "disorder", "destruction", "collapse", "end",
  "death", "dying", "terminal", "fatal", "doomed",
  "exclusive", "elite", "superior", "better than", "privilege",
  "hierarchy", "rank", "status", "class", "caste",
  "border", "boundary", "wall", "barrier", "fence",
  "restriction", "limitation", "constraint", "prohibition", "ban",
  "competition", "rivalry", "opponent", "adversary", "foe"]

def UNITY_MARKERS : List String := [
  "love", "unity", "co-create", "abundance", "possibility",
  "solution", "harmony", "peace", "together", "collaboration",
  "shared source", "potential", "oneness", "wholeness", "integration",
  "connection", "relationship", "bond", "link", "bridge",
  "infinite", "unlimited", "boundless", "endless", "eternal",
  "collective", "community", "all beings", "everyone", "humanity",
  "together", "united", "joined", "merged", "combined",
  "success", "victory", "triumph", "achievement", "accomplishment",
  "empowerment", "strength", "capability", "capacity", "ability",
  "compassion", "kindness", "care", "support", "help",
  "forgiveness", "acceptance", "understanding", "empathy", "sympathy",
  "right", "good", "virtue", "merit", "worth",
  "honor", "respect", "dignity", "value", "appreciation",
  "strong", "capable", "worthy", "deserving", "adequate",
  "possible", "can", "will", "always", "hopeful",
  "calm", "peaceful", "serene", "tranquil", "relaxed",
  "order", "harmony", "balance", "equilibrium", "stability",
  "life", "living", "vital", "vibrant", "thriving",
  "inclusive", "open", "welcoming", "accepting", "embracing",
  "equality", "fairness", "justice", "equity", "balance",
  "opening", "gateway", "portal", "passage", "access",
  "freedom", "liberty", "autonomy", "independence", "sovereignty",
  "cooperation", "partnership", "alliance", "synergy", "symbiosis",
  "trust", "faith", "belief", "confidence", "assurance",
  "joy", "happiness", "delight", "pleasure", "bliss",
  "gratitude", "thankfulness", "appreciation", "acknowledgment", "recognition",
  "growth", "development", "evolution", "progress", "advancement",
  "creation", "generation", "manifestation", "emergence", "birth",
  "light", "illumination", "clarity", "insight", "wisdom",
  "truth", "authenticity", "genuineness", "sincerity", "honesty",
  "beauty", "grace", "elegance", "refinement", "excellence"]

/-- The pydantic model of `models.py`: its declared fields are exactly these
five; there is no `context_info` field. -/
structure UnityReport where
  coefficient : ℚ
  analysis_method : String
  separation_hits : List (String × Nat)
  unity_hits : List (String × Nat)
  conscious_reframing : String
deriving DecidableEq, Repr

/-- Pydantic constructor-time validation of `UnityReport`: the `coefficient`
field carries `ge=0.0, le=1.0`, and construction raises a `ValidationError`
exactly when the bound fails.  Unknown keyword arguments (such as the
`context_info=` passed in `get_unity_report`) are ignored by the pydantic
default `extra` configuration, so the constructor takes only the declared
fields. -/
def UnityReport.validated (c : ℚ) (method : String)
    (sep uni : List (String × Nat)) (reframing : String) :
    Except String UnityReport :=
  if 0 ≤ c ∧ c ≤ 1 then
    Except.ok ⟨c, method, sep, uni, reframing⟩
  else
    Except.error "ValidationError: coefficient must be in [0.0, 1.0]"

/-- Round-half-even to an integer, the rounding used by Python `round`. -/
def roundHalfEven (q : ℚ) : ℤ :=
  let f := ⌊q⌋
  let r := q - (f : ℚ)
  if r < 1/2 then f
  else if 1/2 < r then f + 1
  else if f % 2 = 0 then f else f + 1

/-- Model of Python `round(x, 4)`. -/
def roundTo4 (q : ℚ) : ℚ := (roundHalfEven (q * 10000) : ℚ) / 10000

/-- The three base messages of `v1_keyword_calculate`. -/
def highUnityMessage : String :=
  "High Unity Alignment. The intent is rooted in love and abundance."

def balancedMessage : String :=
  "Balanced Alignment. The potential for conscious co-creation is strong, requiring only slight reframing."

def separationMessage : String :=
  "The content leans towards separation logic. Re-evaluate the core premise from the perspective of our shared source and inherent abundance."

/-- Coefficient computation of `v1_keyword_calculate` from the two hit maps:
`unity_count / (separation_count + unity_count)`, neutral `0.5` when the
total is zero. -/
def engineCoefficient (separation_hits unity_hits : List (String × Nat)) : ℚ :=
  let separation_count := dictValuesSum separation_hits
  let unity_count := dictValuesSum unity_hits
  let total_markers := separation_count + unity_count
  if total_markers = 0 then 1/2
  else (unity_count : ℚ) / (total_markers : ℚ)

/-- Base-message selection of `v1_keyword_calculate` (thresholds 0.75, 0.5). -/
def chooseBaseMessage (coefficient : ℚ) : String :=
  if (3 : ℚ)/4 ≤ coefficient then highUnityMessage
  else if (1 : ℚ)/2 ≤ coefficient then balancedMessage
  else separationMessage

/-- One step of the marker-counting loop: `d[marker] = count` when the count
is positive. -/
def scanStep (textLower : String) (d : List (String × Nat)) (marker : String) :
    List (String × Nat) :=
  let count := pyCount textLower marker
  if 0 < count then dictSet d marker count else d

/-- The marker-counting loop of `v1_keyword_calculate` for one lexicon. -/
def scanMarkers (markers : List String) (textLower : String) :
    List (String × Nat) :=
  markers.foldl (scanStep textLower) []

/-- Embedding of `protocol.v1_keyword_calculate`. -/
def v1_keyword_calculate (text : String) : Except String UnityReport :=
  let textLower := lowerStr text
  let separation_hits := scanMarkers SEPARATION_MARKERS textLower
  let unity_hits := scanMarkers UNITY_MARKERS textLower
  let coefficient := engineCoefficient separation_hits unity_hits
  let reframing := chooseBaseMessage coefficient
  UnityReport.validated (roundTo4 coefficient) "V1: Keyword Lexicon Density"
    separation_hits unity_hits reframing

deriving instance DecidableEq for Except

-- `context.py` --

/-- Embedding of `context.ContentType`, the content-type enumeration. -/
inductive ContentType where
  | fiction | horror | comedy | satire | technical | business
  | personal | academic | spiritual | artistic | journalistic | unknown
deriving DecidableEq, BEq, Repr

/-- The `.value` string of each `ContentType` member. -/
def ContentType.value : ContentType → String
  | .fiction => "fiction"
  | .horror => "horror"
  | .comedy => "comedy"
  | .satire => "satire"
  | .technical => "technical"
  | .business => "business"
  | .personal => "personal"
  | .academic => "academic"
  | .spiritual => "spiritual"
  | .artistic => "artistic"
  | .journalistic => "journalistic"
  | .unknown => "unknown"

/-- Model of `ContentType(s)` with the `ValueError` handler of
`_build_from_user_context`: unrecognized strings degrade to `unknown`. -/
def contentTypeOfString (s : String) : ContentType :=
  if s = "fiction" then .fiction
  else if s = "horror" then .horror
  else if s = "comedy" then .comedy
  else if s = "satire" then .satire
  else if s = "technical" then .technical
  else if s = "business" then .business
  else if s = "personal" then .personal
  else if s = "academic" then .academic
  else if s = "spiritual" then .spiritual
  else if s = "artistic" then .artistic
  else if s = "journalistic" then .journalistic
  else .unknown

/-- The user-supplied context dict, restricted to the keys the source reads
(`type`, `genre`, `intent`, `creative_license`); a missing key is `none`. -/
structure UserContext where
  type : Option String := none
  genre : Option String := none
  intent : Option String := none
  creative_license : Option Bool := none
deriving DecidableEq, Repr

/-- Python truthiness of the user-context dict: the empty dict `{}` is falsy.
With the dict restricted to the keys the source reads, it is truthy exactly
when some key is present. -/
def UserContext.isTruthy (u : UserContext) : Bool :=
  u.type.isSome || u.genre.isSome || u.intent.isSome || u.creative_license.isSome

/-- Embedding of `context.ContentContext` (the `metadata` dict is `none` for `{}` or the
stored user context). -/
structure ContentContext where
  content_type : ContentType
  genre : Option String := none
  intent : Option String := none
  audience : Option String := none
  creative_license : Bool := false
  confidence : ℚ := 0
  metadata : Option UserContext := none
deriving DecidableEq, Repr

/-- The list `ContextDetector.FICTION_INDICATORS`. -/
def FICTION_INDICATORS : List String := [
  "chapter", "protagonist", "character", "plot", "story", "novel",
  "narrative", "scene", "dialogue", "narrator", "fiction"]

/-- The list `ContextDetector.HORROR_INDICATORS`. -/
def HORROR_INDICATORS : List String := [
  "horror", "terror", "fear", "scream", "blood", "death", "monster",
  "nightmare", "haunted", "ghost", "zombie", "vampire", "demon"]

/-- The list `ContextDetector.COMEDY_INDICATORS`. -/
def COMEDY_INDICATORS : List String := [
  "comedy", "humor", "joke", "funny", "satire", "parody", "irony",
  "sarcasm", "wit", "amusing", "hilarious", "laugh"]

/-- The list `ContextDetector.TECHNICAL_INDICATORS`. -/
def TECHNICAL_INDICATORS : List String := [
  "function", "class", "method", "algorithm", "implementation",
  "documentation", "api", "code", "syntax", "compile", "debug"]

/-- The list `ContextDetector.ACADEMIC_INDICATORS`. -/
def ACADEMIC_INDICATORS : List String := [
  "abstract", "methodology", "hypothesis", "research", "study",
  "analysis", "conclusion", "bibliography", "citation", "peer-reviewed"]

/-- The list `ContextDetector.ARTISTIC_INDICATORS`. -/
def ARTISTIC_INDICATORS : List String := [
  "artistic", "creative", "expression", "art", "poetry", "prose",
  "metaphor", "symbolism", "imagery", "aesthetic"]

/-- Embedding of `ContextDetector._calculate_indicator_score`. -/
def calculateIndicatorScore (text : String) (indicators : List String) : ℚ :=
  if indicators.isEmpty then 0
  else ((indicators.filter (fun i => pyContains text i)).length : ℚ) /
    (indicators.length : ℚ)

/-- Embedding of `ContextDetector._detect_content_type`.  In Python,
`max(scores, key=scores.get)` returns the first key attaining the maximal
score in dict insertion order, which is the order of the six branches here. -/
def detectContentType (text : String) : ContentType × ℚ :=
  let sFiction := calculateIndicatorScore text FICTION_INDICATORS
  let sHorror := calculateIndicatorScore text HORROR_INDICATORS
  let sComedy := calculateIndicatorScore text COMEDY_INDICATORS
  let sTechnical := calculateIndicatorScore text TECHNICAL_INDICATORS
  let sAcademic := calculateIndicatorScore text ACADEMIC_INDICATORS
  let sArtistic := calculateIndicatorScore text ARTISTIC_INDICATORS
  let maxScore :=
    max sFiction (max sHorror (max sComedy (max sTechnical (max sAcademic sArtistic))))
  if maxScore < 1/10 then (ContentType.unknown, 0)
  else
    let best :=
      if sFiction = maxScore then ContentType.fiction
      else if sHorror = maxScore then ContentType.horror
      else if sComedy = maxScore then ContentType.comedy
      else if sTechnical = maxScore then ContentType.technical
      else if sAcademic = maxScore then ContentType.academic
      else ContentType.artistic
    (best, min maxScore 1)

/-- Embedding of `ContextDetector._detect_genre`. -/
def detectGenre (text : String) (content_type : ContentType) : Option String :=
  if content_type = ContentType.fiction ∨ content_type = ContentType.artistic then
    if HORROR_INDICATORS.any (fun i => pyContains text i) then some "horror"
    else if COMEDY_INDICATORS.any (fun i => pyContains text i) then some "comedy"
    else none
  else none

/-- Embedding of `ContextDetector._detect_intent`. -/
def detectIntent (_text : String) (content_type : ContentType) : Option String :=
  if content_type = ContentType.fiction ∨ content_type = ContentType.artistic ∨
      content_type = ContentType.horror then some "artistic"
  else if content_type = ContentType.technical then some "educational"
  else if content_type = ContentType.academic then some "research"
  else none

/-- Embedding of `ContextDetector._has_creative_license`. -/
def hasCreativeLicense (content_type : ContentType) (genre : Option String) : Bool :=
  decide (content_type = ContentType.fiction ∨ content_type = ContentType.horror ∨
    content_type = ContentType.comedy ∨ content_type = ContentType.satire ∨
    content_type = ContentType.artistic ∨
    genre = some "horror" ∨ genre = some "comedy" ∨ genre = some "satire")

/-- Embedding of `ContextDetector._build_from_user_context`. -/
def buildFromUserContext (u : UserContext) : ContentContext :=
  { content_type := contentTypeOfString (u.type.getD "unknown")
    genre := u.genre
    intent := u.intent
    audience := none
    creative_license := u.creative_license.getD false
    confidence := 1
    metadata := some u }

/-- The heuristic branch of `ContextDetector.detect` (text already folded). -/
def heuristicDetect (textLower : String) : ContentContext :=
  let tc := detectContentType textLower
  let genre := detectGenre textLower tc.1
  { content_type := tc.1
    genre := genre
    intent := detectIntent textLower tc.1
    audience := none
    creative_license := hasCreativeLicense tc.1 genre
    confidence := tc.2
    metadata := none }

/-- Embedding of `ContextDetector.detect`: a truthy user context short-circuits the
heuristic scan. -/
def detect (text : String) (user_context : Option UserContext) : ContentContext :=
  let textLower := lowerStr text
  match user_context with
  | some u => if u.isTruthy then buildFromUserContext u else heuristicDetect textLower
  | none => heuristicDetect textLower

/-- Model of the Python format expression `f"{x:.2f}"` on the exact rational
value (round-half-even to two decimal digits). -/
def formatCoef2 (q : ℚ) : String :=
  let n := roundHalfEven (q * 100)
  let sign := if n < 0 then "-" else ""
  let m := n.natAbs
  sign ++ toString (m / 100) ++ "." ++ (if m % 100 < 10 then "0" else "") ++
    toString (m % 100)

/-- Model of the Python format expression `f"{x:.0%}"`. -/
def formatPercent0 (q : ℚ) : String :=
  let n := roundHalfEven (q * 100)
  (if n < 0 then "-" else "") ++ toString n.natAbs ++ "%"

/-- Embedding of `ConsciousnessContextualizer._interpret_coefficient`. -/
def interpretCoefficient (coefficient : ℚ) (context : ContentContext) : String :=
  if context.creative_license then
    if context.content_type = ContentType.horror then
      "Unity Coefficient: " ++ formatCoef2 coefficient ++
        " (Genre: Horror Fiction)\nLow coefficient expected for this genre. Creative license respected."
    else if context.content_type = ContentType.comedy then
      "Unity Coefficient: " ++ formatCoef2 coefficient ++
        " (Genre: Comedy/Satire)\nCoefficient reflects comedic/satirical intent. Creative expression honored."
    else
      "Unity Coefficient: " ++ formatCoef2 coefficient ++
        " (Artistic Expression)\nCreative license recognized. No restrictions applied."
  else
    if (3 : ℚ)/4 ≤ coefficient then
      "Unity Coefficient: " ++ formatCoef2 coefficient ++ " - High unity alignment"
    else if (1 : ℚ)/2 ≤ coefficient then
      "Unity Coefficient: " ++ formatCoef2 coefficient ++ " - Balanced alignment"
    else
      "Unity Coefficient: " ++ formatCoef2 coefficient ++
        " - Separation-leaning patterns detected"

/-- Embedding of `ConsciousnessContextualizer._generate_contextual_notes`. -/
def generateContextualNotes (coefficient : ℚ) (context : ContentContext) :
    List String :=
  let base :=
    if context.creative_license then
      ["✓ Creative license respected", "✓ No restrictions applied",
       "✓ Artistic expression honored"] ++
      (if context.content_type = ContentType.horror then
        ["Note: Horror genre naturally employs separation themes for emotional impact"]
      else if context.content_type = ContentType.comedy then
        ["Note: Comedy/satire often uses contrast and conflict for humorous effect"]
      else [])
    else
      if coefficient < 1/2 then
        ["Observation: Content shows separation-based patterns",
         "Suggestion: Alternative framing available if desired"]
      else if (3 : ℚ)/4 ≤ coefficient then
        ["Observation: Strong unity consciousness present",
         "Recognition: Content promotes collaborative awareness"]
      else []
  base ++
    (if context.confidence < 1/2 then
      ["Note: Context detection confidence is " ++ formatPercent0 context.confidence,
       "Tip: You can provide explicit context for more accurate analysis"]
    else [])

/-- Embedding of `ConsciousnessContextualizer._should_suggest_reframing`. -/
def shouldSuggestReframing (coefficient : ℚ) (context : ContentContext) : Bool :=
  if context.creative_license then false
  else if context.content_type = ContentType.business ∨
      context.content_type = ContentType.technical then
    decide (coefficient < 1/2)
  else
    decide (coefficient < 3/10)

/-- The dict returned by
`ConsciousnessContextualizer.contextualize_coefficient`. -/
structure ContextData where
  raw_coefficient : ℚ
  context : ContentContext
  interpretation : String
  notes : List String
  reframing_appropriate : Bool
  creative_license_respected : Bool
deriving DecidableEq, Repr

/-- Embedding of `ConsciousnessContextualizer.contextualize_coefficient`
(= `context.contextualize_analysis`). -/
def contextualizeCoefficient (coefficient : ℚ) (text : String)
    (user_context : Option UserContext) : ContextData :=
  let context := detect text user_context
  { raw_coefficient := coefficient
    context := context
    interpretation := interpretCoefficient coefficient context
    notes := generateContextualNotes coefficient context
    reframing_appropriate := shouldSuggestReframing coefficient context
    creative_license_respected := context.creative_license }

/-- Embedding of `protocol._generate_context_aware_reframing`. -/
def generateContextAwareReframing (base_reframing : String)
    (context_data : ContextData) : String :=
  if context_data.context.creative_license then
    context_data.interpretation ++
      "\n\nCreative Expression Recognized:\nYour artistic vision is respected. No reframing suggested.\nThe consciousness patterns detected are appropriate for " ++
      context_data.context.content_type.value ++ " content."
  else if context_data.reframing_appropriate then
    context_data.interpretation ++ "\n\nObservation: " ++ base_reframing ++
      "\n\nNote: This is informational only. You have complete sovereignty over your expression. Alternative framings are available if desired."
  else
    context_data.interpretation ++ "\n\n" ++ base_reframing

/-- Embedding of `protocol.get_unity_report`.  The enhanced report is built by passing
`context_info=context_data` to the `UnityReport` constructor; since the
pydantic model of `models.py` declares no `context_info` field and its
default configuration ignores unknown keyword arguments, that argument is
dropped and only the five declared fields are set. -/
def get_unity_report (text : String) (user_context : Option UserContext := none)
    (include_context : Bool := true) : Except String UnityReport :=
  match v1_keyword_calculate text with
  | Except.error e => Except.error e
  | Except.ok base_report =>
    if !include_context then Except.ok base_report
    else
      let context_data :=
        contextualizeCoefficient base_report.coefficient text user_context
      UnityReport.validated base_report.coefficient base_report.analysis_method
        base_report.separation_hits base_report.unity_hits
        (generateContextAwareReframing base_report.conscious_reframing context_data)

/-- The six content types scored by `_detect_content_type`, in dict
insertion order. -/
def scoredContentTypes : List ContentType :=
  [ContentType.fiction, ContentType.horror, ContentType.comedy,
   ContentType.technical, ContentType.academic, ContentType.artistic]

/-- The indicator list backing each scored category. -/
def indicatorListFor : ContentType → List String
  | ContentType.fiction => FICTION_INDICATORS
  | ContentType.horror => HORROR_INDICATORS
  | ContentType.comedy => COMEDY_INDICATORS
  | ContentType.technical => TECHNICAL_INDICATORS
  | ContentType.academic => ACADEMIC_INDICATORS
  | ContentType.artistic => ARTISTIC_INDICATORS
  | _ => []

/-- The `scores[t]` entry computed by `_detect_content_type`. -/
def categoryScore (text : String) (t : ContentType) : ℚ :=
  calculateIndicatorScore text (indicatorListFor t)

/-- The value `max(scores.values())` in `_detect_content_type`. -/
def maxIndicatorScore (text : String) : ℚ :=
  max (categoryScore text ContentType.fiction)
    (max (categoryScore text ContentType.horror)
      (max (categoryScore text ContentType.comedy)
        (max (categoryScore text ContentType.technical)
          (max (categoryScore text ContentType.academic)
            (categoryScore text ContentType.artistic)))))

/-- A business-flavored input: it contains the separation markers
"dominate", "competition" and "enemy" alongside two hits of the unity
marker "love", giving coefficient 2/5. -/
def businessText : String := "dominate the competition, enemy. love love"

-- Helper lemmas --

lemma roundHalfEven_intCast (n : ℤ) : roundHalfEven (n : ℚ) = n := by
  simp [roundHalfEven]

lemma roundTo4_eq_of_mul (q : ℚ) (n : ℤ) (h : q * 10000 = (n : ℚ)) :
    roundTo4 q = (n : ℚ) / 10000 := by
  rw [roundTo4, h, roundHalfEven_intCast]

lemma roundHalfEven_nonneg (q : ℚ) (h : 0 ≤ q) : 0 ≤ roundHalfEven q := by
  have hf : (0 : ℤ) ≤ ⌊q⌋ := Int.le_floor.mpr (by exact_mod_cast h)
  unfold roundHalfEven
  dsimp only
  split
  · exact hf
  · split
    · omega
    · split <;> omega

lemma roundHalfEven_le (q : ℚ) (N : ℤ) (h : q ≤ (N : ℚ)) : roundHalfEven q ≤ N := by
  have hfl : ⌊q⌋ ≤ N := by
    have := Int.floor_le_floor h
    simpa using this
  unfold roundHalfEven
  dsimp only
  split
  · exact hfl
  · rename_i h1
    push_neg at h1
    have hq : (⌊q⌋ : ℚ) ≤ q - 1/2 := by
      have := Int.floor_le q
      linarith
    have : (⌊q⌋ : ℚ) < (N : ℚ) := by linarith
    have hlt : ⌊q⌋ < N := by exact_mod_cast this
    split
    · omega
    · split <;> omega

lemma roundTo4_mem_unit (q : ℚ) (h0 : 0 ≤ q) (h1 : q ≤ 1) :
    0 ≤ roundTo4 q ∧ roundTo4 q ≤ 1 := by
  have ha : 0 ≤ q * 10000 := by positivity
  have hb : q * 10000 ≤ ((10000 : ℤ) : ℚ) := by push_cast; linarith
  have hra := roundHalfEven_nonneg (q * 10000) ha
  have hrb := roundHalfEven_le (q * 10000) 10000 hb
  constructor
  · unfold roundTo4
    positivity
  · unfold roundTo4
    rw [div_le_one (by norm_num)]
    exact_mod_cast hrb

lemma engineCoefficient_mem_unit (sep uni : List (String × Nat)) :
    0 ≤ engineCoefficient sep uni ∧ engineCoefficient sep uni ≤ 1 := by
  unfold engineCoefficient
  dsimp only
  split
  · norm_num
  · rename_i ht
    have hpos : (0 : ℚ) < ((dictValuesSum sep + dictValuesSum uni : ℕ) : ℚ) := by
      have := Nat.pos_of_ne_zero ht
      exact_mod_cast this
    constructor
    · positivity
    · rw [div_le_one hpos]
      have : dictValuesSum uni ≤ dictValuesSum sep + dictValuesSum uni := Nat.le_add_left _ _
      exact_mod_cast this

lemma dictLookup_dictSet (d : List (String × Nat)) (k : String) (v : Nat)
    (j : String) :
    dictLookup (dictSet d k v) j = if j = k then some v else dictLookup d j := by
  induction d with
  | nil =>
    simp only [dictSet, dictLookup]
    by_cases hjk : j = k
    · subst hjk
      simp
    · rw [if_neg (fun h => hjk h.symm), if_neg hjk]
  | cons p ps ih =>
    simp only [dictSet]
    by_cases hpk : p.1 = k
    · rw [if_pos hpk]
      by_cases hjk : j = k
      · subst hjk
        simp [dictLookup]
      · simp only [dictLookup]
        rw [if_neg (fun h => hjk h.symm), if_neg hjk]
        rw [if_neg (by rw [hpk]; exact fun h => hjk h.symm)]
    · rw [if_neg hpk]
      simp only [dictLookup]
      by_cases hpj : p.1 = j
      · have hjk : ¬ j = k := fun h => hpk (hpj.trans h)
        rw [if_pos hpj, if_neg hjk, if_pos hpj]
      · rw [if_neg hpj, ih]
        by_cases hjk : j = k
        · rw [if_pos hjk, if_pos hjk]
        · rw [if_neg hjk, if_neg hjk]
          rw [if_neg hpj]

lemma mem_dictSet (d : List (String × Nat)) (k : String) (v : Nat)
    (p : String × Nat) (h : p ∈ dictSet d k v) : p = (k, v) ∨ p ∈ d := by
  induction d with
  | nil => simpa [dictSet] using h
  | cons q qs ih =>
    by_cases hqk : q.1 = k
    · simp only [dictSet, hqk, if_pos rfl] at h
      rcases List.mem_cons.mp h with h1 | h1
      · exact Or.inl h1
      · exact Or.inr (List.mem_cons_of_mem _ h1)
    · simp only [dictSet, hqk, if_neg hqk] at h
      rcases List.mem_cons.mp h with h1 | h1
      · exact Or.inr (h1 ▸ List.mem_cons_self _ _)
      · rcases ih h1 with h2 | h2
        · exact Or.inl h2
        · exact Or.inr (List.mem_cons_of_mem _ h2)

lemma scan_foldl_pos (t : String) (L : List String) (d : List (String × Nat))
    (hd : ∀ p ∈ d, 0 < p.2) :
    ∀ p ∈ List.foldl (scanStep t) d L, 0 < p.2 := by
  induction L generalizing d with
  | nil => simpa using hd
  | cons m L ih =>
    intro p hp
    refine ih (scanStep t d m) ?_ p hp
    intro q hq
    unfold scanStep at hq
    dsimp only at hq
    split at hq
    · rcases mem_dictSet _ _ _ _ hq with h1 | h1
      · subst h1
        assumption
      · exact hd _ h1
    · exact hd _ hq

lemma scan_foldl_lookup (t : String) (L : List String) (d : List (String × Nat))
    (k : String) :
    dictLookup (List.foldl (scanStep t) d L) k =
      if k ∈ L ∧ 0 < pyCount t k then some (pyCount t k) else dictLookup d k := by
  induction L generalizing d with
  | nil => simp
  | cons m L ih =>
    rw [List.foldl_cons, ih]
    by_cases hmem : k ∈ L ∧ 0 < pyCount t k
    · rw [if_pos hmem, if_pos ⟨List.mem_cons_of_mem m hmem.1, hmem.2⟩]
    · rw [if_neg hmem]
      by_cases hkm : k = m
      · subst hkm
        by_cases hc : 0 < pyCount t k
        · simp only [scanStep, if_pos hc]
          rw [dictLookup_dictSet, if_pos rfl, if_pos ⟨List.mem_cons_self _ _, hc⟩]
        · have hnot : ¬ (k ∈ k :: L ∧ 0 < pyCount t k) := fun h => hc h.2
          simp only [scanStep, if_neg hc]
          rw [if_neg hnot]
      · have hnot : ¬ (k ∈ m :: L ∧ 0 < pyCount t k) := by
          intro h
          rcases List.mem_cons.mp h.1 with h1 | h1
          · exact hkm h1
          · exact hmem ⟨h1, h.2⟩
        rw [if_neg hnot]
        unfold scanStep
        dsimp only
        split
        · rw [dictLookup_dictSet, if_neg hkm]
        · rfl

lemma scanMarkers_lookup (L : List String) (t : String) (k : String) :
    dictLookup (scanMarkers L t) k =
      if k ∈ L ∧ 0 < pyCount t k then some (pyCount t k) else none := by
  rw [scanMarkers, scan_foldl_lookup]
  rfl

lemma scanMarkers_pos (L : List String) (t : String) :
    ∀ p ∈ scanMarkers L t, 0 < p.2 :=
  scan_foldl_pos t L [] (by simp)

lemma validated_ok_iff (c : ℚ) (m : String) (s u : List (String × Nat))
    (r : String) (rep : UnityReport) :
    UnityReport.validated c m s u r = Except.ok rep ↔
      (0 ≤ c ∧ c ≤ 1) ∧ rep = ⟨c, m, s, u, r⟩ := by
  unfold UnityReport.validated
  split
  · rename_i h
    constructor
    · intro he
      exact ⟨h, (Except.ok.injEq _ _ |>.mp he).symm⟩
    · intro ⟨_, hrep⟩
      rw [hrep]
  · rename_i h
    constructor
    · intro he
      cases he
    · intro ⟨h1, _⟩
      exact absurd h1 h

lemma v1_keyword_calculate_ok (text : String) :
    v1_keyword_calculate text = Except.ok
      { coefficient := roundTo4 (engineCoefficient
          (scanMarkers SEPARATION_MARKERS (lowerStr text))
          (scanMarkers UNITY_MARKERS (lowerStr text)))
        analysis_method := "V1: Keyword Lexicon Density"
        separation_hits := scanMarkers SEPARATION_MARKERS (lowerStr text)
        unity_hits := scanMarkers UNITY_MARKERS (lowerStr text)
        conscious_reframing := chooseBaseMessage (engineCoefficient
          (scanMarkers SEPARATION_MARKERS (lowerStr text))
          (scanMarkers UNITY_MARKERS (lowerStr text))) } := by
  unfold v1_keyword_calculate
  rw [validated_ok_iff]
  refine ⟨?_, rfl⟩
  obtain ⟨h0, h1⟩ := engineCoefficient_mem_unit
    (scanMarkers SEPARATION_MARKERS (lowerStr text))
    (scanMarkers UNITY_MARKERS (lowerStr text))
  exact roundTo4_mem_unit _ h0 h1

lemma get_unity_report_false_eq (text : String) (uc : Option UserContext) :
    get_unity_report text uc false = v1_keyword_calculate text := by
  unfold get_unity_report
  rw [v1_keyword_calculate_ok text]
  rfl

lemma get_unity_report_true_eq (text : String) (uc : Option UserContext) :
    get_unity_report text uc true =
      UnityReport.validated
        (roundTo4 (engineCoefficient
          (scanMarkers SEPARATION_MARKERS (lowerStr text))
          (scanMarkers UNITY_MARKERS (lowerStr text))))
        "V1: Keyword Lexicon Density"
        (scanMarkers SEPARATION_MARKERS (lowerStr text))
        (scanMarkers UNITY_MARKERS (lowerStr text))
        (generateContextAwareReframing
          (chooseBaseMessage (engineCoefficient
            (scanMarkers SEPARATION_MARKERS (lowerStr text))
            (scanMarkers UNITY_MARKERS (lowerStr text))))
          (contextualizeCoefficient
            (roundTo4 (engineCoefficient
              (scanMarkers SEPARATION_MARKERS (lowerStr text))
              (scanMarkers UNITY_MARKERS (lowerStr text))))
            text uc)) := by
  unfold get_unity_report
  rw [v1_keyword_calculate_ok text]
  rfl

-- Claim theorems --

/-- C2: the coefficient engine sums the hit-map values; a zero grand total
gives coefficient exactly 1/2, otherwise the coefficient is
`unity_count / total` (stored rounded to 4 decimal digits), and the base
message is selected by the three bands at 0.75 and 0.5. -/
theorem c2_engine_totals_and_bands (sep uni : List (String × Nat)) (text : String) :
    (dictValuesSum sep + dictValuesSum uni = 0 → engineCoefficient sep uni = 1/2) ∧
    (dictValuesSum sep + dictValuesSum uni ≠ 0 →
      engineCoefficient sep uni =
        (dictValuesSum uni : ℚ) / ((dictValuesSum sep + dictValuesSum uni : ℕ) : ℚ)) ∧
    ((3 : ℚ)/4 ≤ engineCoefficient sep uni →
      chooseBaseMessage (engineCoefficient sep uni) = highUnityMessage) ∧
    ((1 : ℚ)/2 ≤ engineCoefficient sep uni ∧ engineCoefficient sep uni < 3/4 →
      chooseBaseMessage (engineCoefficient sep uni) = balancedMessage) ∧
    (engineCoefficient sep uni < 1/2 →
      chooseBaseMessage (engineCoefficient sep uni) = separationMessage) ∧
    (∀ rep, v1_keyword_calculate text = Except.ok rep →
      rep.coefficient = roundTo4 (engineCoefficient
        (scanMarkers SEPARATION_MARKERS (lowerStr text))
        (scanMarkers UNITY_MARKERS (lowerStr text))) ∧
      rep.conscious_reframing = chooseBaseMessage (engineCoefficient
        (scanMarkers SEPARATION_MARKERS (lowerStr text))
        (scanMarkers UNITY_MARKERS (lowerStr text)))) := by
  refine ⟨?_, ?_, ?_, ?_, ?_, ?_⟩
  · intro h
    simp [engineCoefficient, h]
  · intro h
    simp [engineCoefficient, h]
  · intro h
    rw [chooseBaseMessage, if_pos h]
  · intro h
    rw [chooseBaseMessage, if_neg (not_le.mpr h.2), if_pos h.1]
  · intro h
    rw [chooseBaseMessage, if_neg (not_le.mpr (by linarith)),
      if_neg (not_le.mpr h)]
  · intro rep h
    rw [v1_keyword_calculate_ok] at h
    cases h
    exact ⟨rfl, rfl⟩

/-- Witness for C2 at the hit maps of "love love love fear". -/
theorem c2_engine_totals_and_bands_witness :
    engineCoefficient [("fear", 1)] [("love", 3)] =
      (dictValuesSum [("love", 3)] : ℚ) /
        ((dictValuesSum [("fear", 1)] + dictValuesSum [("love", 3)] : ℕ) : ℚ) ∧
    chooseBaseMessage (engineCoefficient [("fear", 1)] [("love", 3)]) =
      highUnityMessage :=
  ⟨(c2_engine_totals_and_bands [("fear", 1)] [("love", 3)] "").2.1 (by decide),
   (c2_engine_totals_and_bands [("fear", 1)] [("love", 3)] "").2.2.1 (by
      norm_num [engineCoefficient, dictValuesSum])⟩

set_option maxRecDepth 200000 in
/-- C3: the scanner lower-cases the text, counts per-marker non-overlapping
occurrences, and a marker is in a hit map iff its count is positive (so all
stored counts are positive); the text "love love love fear" gives
unity hits love = 3, separation hits fear = 1 and coefficient 0.75. -/
theorem c3_marker_scanner (text : String) :
    (∀ p ∈ scanMarkers SEPARATION_MARKERS (lowerStr text), 0 < p.2) ∧
    (∀ p ∈ scanMarkers UNITY_MARKERS (lowerStr text), 0 < p.2) ∧
    (∀ m, dictLookup (scanMarkers SEPARATION_MARKERS (lowerStr text)) m =
      if m ∈ SEPARATION_MARKERS ∧ 0 < pyCount (lowerStr text) m
      then some (pyCount (lowerStr text) m) else none) ∧
    (∀ m, dictLookup (scanMarkers UNITY_MARKERS (lowerStr text)) m =
      if m ∈ UNITY_MARKERS ∧ 0 < pyCount (lowerStr text) m
      then some (pyCount (lowerStr text) m) else none) ∧
    (∀ t2, lowerStr t2 = lowerStr text →
      v1_keyword_calculate t2 = v1_keyword_calculate text) ∧
    dictLookup (scanMarkers UNITY_MARKERS (lowerStr "love love love fear"))
      "love" = some 3 ∧
    dictLookup (scanMarkers SEPARATION_MARKERS (lowerStr "love love love fear"))
      "fear" = some 1 ∧
    v1_keyword_calculate "love love love fear" = Except.ok
      ⟨3/4, "V1: Keyword Lexicon Density", [("fear", 1)], [("love", 3)],
        highUnityMessage⟩ := by
  refine ⟨scanMarkers_pos _ _, scanMarkers_pos _ _,
    fun m => scanMarkers_lookup _ _ m, fun m => scanMarkers_lookup _ _ m,
    ?_, by decide, by decide, ?_⟩
  · intro t2 h
    unfold v1_keyword_calculate
    rw [h]
  · rw [v1_keyword_calculate_ok]
    have hs : scanMarkers SEPARATION_MARKERS (lowerStr "love love love fear") =
        [("fear", 1)] := by decide
    have hu : scanMarkers UNITY_MARKERS (lowerStr "love love love fear") =
        [("love", 3)] := by decide
    rw [hs, hu]
    have hc : engineCoefficient [("fear", 1)] [("love", 3)] = 3/4 := by
      norm_num [engineCoefficient, dictValuesSum]
    rw [hc]
    have hr : roundTo4 (3/4) = 3/4 := by
      rw [roundTo4_eq_of_mul (3/4) 7500 (by norm_num)]
      norm_num
    have hm : chooseBaseMessage (3/4) = highUnityMessage := by
      rw [chooseBaseMessage, if_pos (le_refl _)]
    rw [hr, hm]

set_option maxRecDepth 200000 in
/-- Witness for C3: the stored count for "love" is positive. -/
theorem c3_marker_scanner_witness : 0 < (("love", 3) : String × Nat).2 :=
  (c3_marker_scanner "love love love fear").2.1 ("love", 3) (by decide)

/-- C4: report construction fails exactly when the coefficient is outside
[0, 1]; the scanner/engine coefficient is always within [0, 1]; and the
public analysis operation never raises. -/
theorem c4_validation_and_totality :
    (∀ c m s u r, (∃ e, UnityReport.validated c m s u r = Except.error e) ↔
      ¬ (0 ≤ c ∧ c ≤ 1)) ∧
    (∀ text, ∃ rep, v1_keyword_calculate text = Except.ok rep ∧
      0 ≤ rep.coefficient ∧ rep.coefficient ≤ 1) ∧
    (∀ text user_context include_context, ∃ rep,
      get_unity_report text user_context include_context = Except.ok rep) := by
  have hbounds : ∀ text : String,
      0 ≤ roundTo4 (engineCoefficient
        (scanMarkers SEPARATION_MARKERS (lowerStr text))
        (scanMarkers UNITY_MARKERS (lowerStr text))) ∧
      roundTo4 (engineCoefficient
        (scanMarkers SEPARATION_MARKERS (lowerStr text))
        (scanMarkers UNITY_MARKERS (lowerStr text))) ≤ 1 := by
    intro text
    obtain ⟨h0, h1⟩ := engineCoefficient_mem_unit
      (scanMarkers SEPARATION_MARKERS (lowerStr text))
      (scanMarkers UNITY_MARKERS (lowerStr text))
    exact roundTo4_mem_unit _ h0 h1
  refine ⟨?_, ?_, ?_⟩
  · intro c m s u r
    unfold UnityReport.validated
    split
    · rename_i h
      constructor
      · rintro ⟨e, he⟩
        exact Except.noConfusion he
      · intro hn
        exact absurd h hn
    · rename_i h
      exact ⟨fun _ => h, fun _ => ⟨_, rfl⟩⟩
  · intro text
    exact ⟨_, v1_keyword_calculate_ok text, (hbounds text).1, (hbounds text).2⟩
  · intro text user_context include_context
    cases include_context with
    | false =>
      exact ⟨_, (get_unity_report_false_eq text user_context).trans
        (v1_keyword_calculate_ok text)⟩
    | true =>
      exact ⟨_, (get_unity_report_true_eq text user_context).trans
        ((validated_ok_iff _ _ _ _ _ _).mpr
          ⟨⟨(hbounds text).1, (hbounds text).2⟩, rfl⟩)⟩

/-- Witness for C4: the analysis of "love" succeeds. -/
theorem c4_validation_and_totality_witness :
    ∃ rep, get_unity_report "love" none true = Except.ok rep :=
  c4_validation_and_totality.2.2 "love" none true

set_option maxRecDepth 200000 in
/-- C6 counterexample: the lexicons are not duplicate-free ("impossible"
occurs twice in the separation lexicon; "together", "harmony",
"appreciation" and "balance" occur twice in the unity lexicon). -/
theorem c6_lexicon_counterexample :
    ¬ (SEPARATION_MARKERS.Nodup ∧ UNITY_MARKERS.Nodup) := by decide

set_option maxRecDepth 200000 in
/-- C6 amended: each lexicon is a sequence of lowercase strings and the two
lexicons are disjoint, but each contains duplicate entries ("impossible"
twice in the separation lexicon; "together", "harmony", "appreciation" and
"balance" twice in the unity lexicon). -/
theorem c6_lexicon_amended :
    SEPARATION_MARKERS.all
      (fun m => lowerStr m == m && !(UNITY_MARKERS.contains m)) = true ∧
    UNITY_MARKERS.all (fun m => lowerStr m == m) = true ∧
    SEPARATION_MARKERS.count "impossible" = 2 ∧
    UNITY_MARKERS.count "together" = 2 ∧
    UNITY_MARKERS.count "harmony" = 2 ∧
    UNITY_MARKERS.count "appreciation" = 2 ∧
    UNITY_MARKERS.count "balance" = 2 := by
  exact ⟨by decide, by decide, by decide, by decide, by decide, by decide,
    by decide⟩

/-- C7: a truthy user context is trusted without scanning: its `type` string
is parsed against the enumeration with unrecognized values degrading to
`unknown`, `genre`/`intent`/`creative_license` are carried verbatim, and
confidence is 1.0; `{type: "fiction", creative_license: true}` forces the
creative-license flag even for text with no fiction indicators. -/
theorem c7_user_context_trusted (u : UserContext) (text : String)
    (h : u.isTruthy = true) :
    detect text (some u) = buildFromUserContext u ∧
    (detect text (some u)).confidence = 1 ∧
    (detect text (some u)).content_type =
      contentTypeOfString (u.type.getD "unknown") ∧
    (detect text (some u)).genre = u.genre ∧
    (detect text (some u)).intent = u.intent ∧
    (detect text (some u)).creative_license = u.creative_license.getD false ∧
    (∀ s : String, s ≠ "fiction" → s ≠ "horror" → s ≠ "comedy" → s ≠ "satire" →
      s ≠ "technical" → s ≠ "business" → s ≠ "personal" → s ≠ "academic" →
      s ≠ "spiritual" → s ≠ "artistic" → s ≠ "journalistic" →
      contentTypeOfString s = ContentType.unknown) ∧
    (detect "no indicators here"
      (some ⟨some "fiction", none, none, some true⟩)).creative_license = true := by
  have hd : detect text (some u) = buildFromUserContext u := by
    simp [detect, h]
  refine ⟨hd, ?_, ?_, ?_, ?_, ?_, ?_, by decide⟩
  · rw [hd]; rfl
  · rw [hd]; rfl
  · rw [hd]; rfl
  · rw [hd]; rfl
  · rw [hd]; rfl
  · intro s h1 h2 h3 h4 h5 h6 h7 h8 h9 h10 h11
    simp [contentTypeOfString, h1, h2, h3, h4, h5, h6, h7, h8, h9, h10, h11]

/-- Witness for C7 at the fiction user context example. -/
theorem c7_user_context_trusted_witness :
    detect "plain text" (some ⟨some "fiction", none, none, some true⟩) =
      buildFromUserContext ⟨some "fiction", none, none, some true⟩ :=
  (c7_user_context_trusted ⟨some "fiction", none, none, some true⟩
    "plain text" (by decide)).1

/-- C10: supplying an empty user-context mapping behaves exactly as
supplying no user context: the dict is falsy, so the trusted-override branch
is skipped and heuristic detection runs. -/
theorem c10_empty_user_context_falsy (text : String) (include_context : Bool) :
    detect text (some ⟨none, none, none, none⟩) = detect text none ∧
    detect text (some ⟨none, none, none, none⟩) =
      heuristicDetect (lowerStr text) ∧
    get_unity_report text (some ⟨none, none, none, none⟩) include_context =
      get_unity_report text none include_context := by
  have h1 : detect text (some ⟨none, none, none, none⟩) = detect text none := rfl
  refine ⟨h1, rfl, ?_⟩
  cases include_context with
  | false => rw [get_unity_report_false_eq, get_unity_report_false_eq]
  | true =>
    rw [get_unity_report_true_eq, get_unity_report_true_eq]
    simp only [contextualizeCoefficient, h1]

/-- C8: heuristic content-type detection scores each of the six categories as
(number of distinct indicators present) / (size of the indicator list),
returns unknown with confidence 0.0 when the maximum score is below 0.1, and
otherwise a maximal-score category with confidence the winning score capped
at 1.0. -/
theorem c8_heuristic_content_type (text : String) :
    FICTION_INDICATORS.Nodup ∧ HORROR_INDICATORS.Nodup ∧
    COMEDY_INDICATORS.Nodup ∧ TECHNICAL_INDICATORS.Nodup ∧
    ACADEMIC_INDICATORS.Nodup ∧ ARTISTIC_INDICATORS.Nodup ∧
    (∀ t ∈ scoredContentTypes, categoryScore text t =
      (((indicatorListFor t).filter (fun i => pyContains text i)).length : ℚ) /
        ((indicatorListFor t).length : ℚ)) ∧
    (maxIndicatorScore text < 1/10 →
      detectContentType text = (ContentType.unknown, 0)) ∧
    ((1 : ℚ)/10 ≤ maxIndicatorScore text →
      (detectContentType text).1 ∈ scoredContentTypes ∧
      categoryScore text (detectContentType text).1 = maxIndicatorScore text ∧
      (detectContentType text).2 = min (maxIndicatorScore text) 1) := by
  refine ⟨by decide, by decide, by decide, by decide, by decide, by decide,
    ?_, ?_, ?_⟩
  · intro t ht
    fin_cases ht <;>
      (simp only [categoryScore, calculateIndicatorScore, indicatorListFor]
       rw [if_neg (by decide)])
  · intro h
    have h2 : max (calculateIndicatorScore text FICTION_INDICATORS)
        (max (calculateIndicatorScore text HORROR_INDICATORS)
          (max (calculateIndicatorScore text COMEDY_INDICATORS)
            (max (calculateIndicatorScore text TECHNICAL_INDICATORS)
              (max (calculateIndicatorScore text ACADEMIC_INDICATORS)
                (calculateIndicatorScore text ARTISTIC_INDICATORS))))) <
        1/10 := h
    simp only [detectContentType]
    rw [if_pos h2]
  · intro h
    have h2 : ¬ (max (calculateIndicatorScore text FICTION_INDICATORS)
        (max (calculateIndicatorScore text HORROR_INDICATORS)
          (max (calculateIndicatorScore text COMEDY_INDICATORS)
            (max (calculateIndicatorScore text TECHNICAL_INDICATORS)
              (max (calculateIndicatorScore text ACADEMIC_INDICATORS)
                (calculateIndicatorScore text ARTISTIC_INDICATORS))))) <
        1/10) := not_lt.mpr h
    simp only [detectContentType]
    rw [if_neg h2]
    split_ifs with hF hH hC hT hA
    · exact ⟨by simp [scoredContentTypes], hF, rfl⟩
    · exact ⟨by simp [scoredContentTypes], hH, rfl⟩
    · exact ⟨by simp [scoredContentTypes], hC, rfl⟩
    · exact ⟨by simp [scoredContentTypes], hT, rfl⟩
    · exact ⟨by simp [scoredContentTypes], hA, rfl⟩
    · refine ⟨by simp [scoredContentTypes], ?_, rfl⟩
      rcases max_choice (calculateIndicatorScore text FICTION_INDICATORS)
        (max (calculateIndicatorScore text HORROR_INDICATORS)
          (max (calculateIndicatorScore text COMEDY_INDICATORS)
            (max (calculateIndicatorScore text TECHNICAL_INDICATORS)
              (max (calculateIndicatorScore text ACADEMIC_INDICATORS)
                (calculateIndicatorScore text ARTISTIC_INDICATORS))))) with
        h1 | h1
      · exact absurd h1.symm hF
      · rcases max_choice (calculateIndicatorScore text HORROR_INDICATORS)
          (max (calculateIndicatorScore text COMEDY_INDICATORS)
            (max (calculateIndicatorScore text TECHNICAL_INDICATORS)
              (max (calculateIndicatorScore text ACADEMIC_INDICATORS)
                (calculateIndicatorScore text ARTISTIC_INDICATORS)))) with
          hx | hx
        · exact absurd (h1.trans hx).symm hH
        · rcases max_choice (calculateIndicatorScore text COMEDY_INDICATORS)
            (max (calculateIndicatorScore text TECHNICAL_INDICATORS)
              (max (calculateIndicatorScore text ACADEMIC_INDICATORS)
                (calculateIndicatorScore text ARTISTIC_INDICATORS))) with
            hy | hy
          · exact absurd ((h1.trans hx).trans hy).symm hC
          · rcases max_choice (calculateIndicatorScore text TECHNICAL_INDICATORS)
              (max (calculateIndicatorScore text ACADEMIC_INDICATORS)
                (calculateIndicatorScore text ARTISTIC_INDICATORS)) with
              hz | hz
            · exact absurd (((h1.trans hx).trans hy).trans hz).symm hT
            · rcases max_choice (calculateIndicatorScore text ACADEMIC_INDICATORS)
                (calculateIndicatorScore text ARTISTIC_INDICATORS) with
                hw | hw
              · exact absurd ((((h1.trans hx).trans hy).trans hz).trans hw).symm hA
              · exact ((((h1.trans hx).trans hy).trans hz).trans hw).symm

/-- Witness for C8: "chapter one of the story" clears the 0.1 floor and its
confidence is the winning score capped at 1.0. -/
theorem c8_heuristic_content_type_witness :
    (detectContentType "chapter one of the story").1 ∈ scoredContentTypes ∧
    (detectContentType "chapter one of the story").2 =
      min (maxIndicatorScore "chapter one of the story") 1 := by
  have e1 : FICTION_INDICATORS.filter
      (fun i => pyContains "chapter one of the story" i) =
      ["chapter", "story"] := by decide
  have hsF : calculateIndicatorScore "chapter one of the story"
      FICTION_INDICATORS = 2/11 := by
    simp only [calculateIndicatorScore, e1]
    rw [if_neg (by decide)]
    norm_num [FICTION_INDICATORS]
  have hle : (1 : ℚ)/10 ≤ maxIndicatorScore "chapter one of the story" := by
    refine le_trans ?_ (le_max_left _ _)
    show (1 : ℚ)/10 ≤ calculateIndicatorScore "chapter one of the story"
      FICTION_INDICATORS
    rw [hsF]
    norm_num
  exact ⟨(c8_heuristic_content_type "chapter one of the story").2.2.2.2.2.2.2.2
      hle |>.1,
    (c8_heuristic_content_type "chapter one of the story").2.2.2.2.2.2.2.2
      hle |>.2.2⟩

/-- C9: whenever the context carries creative license, the interpretation is
the genre-flavored message naming horror, comedy or other-artistic
expression, and the final reframing message affirms artistic respect and
that no reframing is suggested, for every coefficient. -/
theorem c9_creative_license_messages (coefficient : ℚ) (text : String)
    (uc : Option UserContext) (base_reframing : String)
    (h : (detect text uc).creative_license = true) :
    (contextualizeCoefficient coefficient text uc).creative_license_respected =
      true ∧
    (contextualizeCoefficient coefficient text uc).reframing_appropriate =
      false ∧
    (contextualizeCoefficient coefficient text uc).interpretation =
      (if (detect text uc).content_type = ContentType.horror then
        "Unity Coefficient: " ++ formatCoef2 coefficient ++
          " (Genre: Horror Fiction)\nLow coefficient expected for this genre. Creative license respected."
      else if (detect text uc).content_type = ContentType.comedy then
        "Unity Coefficient: " ++ formatCoef2 coefficient ++
          " (Genre: Comedy/Satire)\nCoefficient reflects comedic/satirical intent. Creative expression honored."
      else
        "Unity Coefficient: " ++ formatCoef2 coefficient ++
          " (Artistic Expression)\nCreative license recognized. No restrictions applied.") ∧
    generateContextAwareReframing base_reframing
        (contextualizeCoefficient coefficient text uc) =
      (contextualizeCoefficient coefficient text uc).interpretation ++
        "\n\nCreative Expression Recognized:\nYour artistic vision is respected. No reframing suggested.\nThe consciousness patterns detected are appropriate for " ++
        (detect text uc).content_type.value ++ " content." := by
  refine ⟨?_, ?_, ?_, ?_⟩
  · simp only [contextualizeCoefficient]
    exact h
  · simp only [contextualizeCoefficient, shouldSuggestReframing]
    rw [if_pos h]
  · simp only [contextualizeCoefficient, interpretCoefficient]
    rw [if_pos h]
  · simp only [generateContextAwareReframing, contextualizeCoefficient]
    rw [if_pos h]

/-- Witness for C9 at a user context declaring horror with creative license. -/
theorem c9_creative_license_messages_witness :
    (contextualizeCoefficient 0 "t"
      (some ⟨some "horror", none, none, some true⟩)).creative_license_respected =
      true ∧
    (contextualizeCoefficient 0 "t"
      (some ⟨some "horror", none, none, some true⟩)).reframing_appropriate =
      false :=
  ⟨(c9_creative_license_messages 0 "t"
      (some ⟨some "horror", none, none, some true⟩) "B" (by decide)).1,
   (c9_creative_license_messages 0 "t"
      (some ⟨some "horror", none, none, some true⟩) "B" (by decide)).2.1⟩

set_option maxRecDepth 200000 in
/-- C1: evaluation of `get_unity_report` on "love".  With
`include_context=false` the report is the base report; with
`include_context=true` the returned value is the five-field record with only
the final message rewritten — the `UnityReport` model declares no
`context_info` field and pydantic drops the extra `context_info=` argument,
so no report ever carries a context block. -/
theorem c1_context_info_dropped :
    get_unity_report "love" none false = Except.ok
      ⟨1, "V1: Keyword Lexicon Density", [], [("love", 1)],
        highUnityMessage⟩ ∧
    get_unity_report "love" none true = Except.ok
      ⟨1, "V1: Keyword Lexicon Density", [], [("love", 1)],
        "Unity Coefficient: 1.00 - High unity alignment\n\nHigh Unity Alignment. The intent is rooted in love and abundance."⟩ := by
  have hs : scanMarkers SEPARATION_MARKERS (lowerStr "love") = [] := by decide
  have hu : scanMarkers UNITY_MARKERS (lowerStr "love") = [("love", 1)] := by
    decide
  have hc : engineCoefficient [] [("love", 1)] = 1 := by
    norm_num [engineCoefficient, dictValuesSum]
  have hr : roundTo4 1 = 1 := by
    rw [roundTo4_eq_of_mul 1 10000 (by norm_num)]
    norm_num
  have hmsg : chooseBaseMessage 1 = highUnityMessage := by
    rw [chooseBaseMessage, if_pos (by norm_num)]
  have hfil1 : FICTION_INDICATORS.filter
      (fun i => pyContains (lowerStr "love") i) = [] := by decide
  have hfil2 : HORROR_INDICATORS.filter
      (fun i => pyContains (lowerStr "love") i) = [] := by decide
  have hfil3 : COMEDY_INDICATORS.filter
      (fun i => pyContains (lowerStr "love") i) = [] := by decide
  have hfil4 : TECHNICAL_INDICATORS.filter
      (fun i => pyContains (lowerStr "love") i) = [] := by decide
  have hfil5 : ACADEMIC_INDICATORS.filter
      (fun i => pyContains (lowerStr "love") i) = [] := by decide
  have hfil6 : ARTISTIC_INDICATORS.filter
      (fun i => pyContains (lowerStr "love") i) = [] := by decide
  have hsc1 : calculateIndicatorScore (lowerStr "love") FICTION_INDICATORS = 0 := by
    simp only [calculateIndicatorScore, hfil1]
    rw [if_neg (by decide)]
    norm_num
  have hsc2 : calculateIndicatorScore (lowerStr "love") HORROR_INDICATORS = 0 := by
    simp only [calculateIndicatorScore, hfil2]
    rw [if_neg (by decide)]
    norm_num
  have hsc3 : calculateIndicatorScore (lowerStr "love") COMEDY_INDICATORS = 0 := by
    simp only [calculateIndicatorScore, hfil3]
    rw [if_neg (by decide)]
    norm_num
  have hsc4 : calculateIndicatorScore (lowerStr "love") TECHNICAL_INDICATORS = 0 := by
    simp only [calculateIndicatorScore, hfil4]
    rw [if_neg (by decide)]
    norm_num
  have hsc5 : calculateIndicatorScore (lowerStr "love") ACADEMIC_INDICATORS = 0 := by
    simp only [calculateIndicatorScore, hfil5]
    rw [if_neg (by decide)]
    norm_num
  have hsc6 : calculateIndicatorScore (lowerStr "love") ARTISTIC_INDICATORS = 0 := by
    simp only [calculateIndicatorScore, hfil6]
    rw [if_neg (by decide)]
    norm_num
  have hdct : detectContentType (lowerStr "love") = (ContentType.unknown, 0) := by
    simp only [detectContentType, hsc1, hsc2, hsc3, hsc4, hsc5, hsc6]
    rw [if_pos (show max (0:ℚ) (max 0 (max 0 (max 0 (max 0 0)))) < 1/10 by
      simp only [max_self]
      norm_num)]
  have hg : detectGenre (lowerStr "love") ContentType.unknown = none := by decide
  have hi : detectIntent (lowerStr "love") ContentType.unknown = none := by decide
  have hcl : hasCreativeLicense ContentType.unknown none = false := by decide
  have hdet : detect "love" none =
      ⟨ContentType.unknown, none, none, none, false, 0, none⟩ := by
    show heuristicDetect (lowerStr "love") =
      ⟨ContentType.unknown, none, none, none, false, 0, none⟩
    simp only [heuristicDetect, hdct, hg, hi, hcl]
  have hf100 : formatCoef2 1 = "1.00" := by
    have h100 : roundHalfEven ((1 : ℚ) * 100) = 100 := by
      rw [show ((1 : ℚ) * 100) = ((100 : ℤ) : ℚ) by norm_num]
      exact roundHalfEven_intCast 100
    simp only [formatCoef2, h100]
    rfl
  have hint : interpretCoefficient 1
      ⟨ContentType.unknown, none, none, none, false, 0, none⟩ =
      "Unity Coefficient: 1.00 - High unity alignment" := by
    simp only [interpretCoefficient]
    rw [if_neg (by simp), if_pos (by norm_num), hf100]
    rfl
  have hsr : shouldSuggestReframing 1
      ⟨ContentType.unknown, none, none, none, false, 0, none⟩ = false := by
    simp only [shouldSuggestReframing]
    rw [if_neg (by simp), if_neg (by decide)]
    simp only [decide_eq_false_iff_not]
    norm_num
  have hgen : generateContextAwareReframing highUnityMessage
      (contextualizeCoefficient 1 "love" none) =
      "Unity Coefficient: 1.00 - High unity alignment\n\nHigh Unity Alignment. The intent is rooted in love and abundance." := by
    simp only [generateContextAwareReframing, contextualizeCoefficient, hdet,
      hsr, hint]
    rw [if_neg (by simp), if_neg (by simp)]
    rfl
  constructor
  · rw [get_unity_report_false_eq, v1_keyword_calculate_ok, hs, hu, hc, hr, hmsg]
  · rw [get_unity_report_true_eq, hs, hu, hc, hr, hmsg, hgen]
    simp only [UnityReport.validated]
    rw [if_pos ⟨by norm_num, by norm_num⟩]


set_option maxRecDepth 200000 in
/-- C5 counterexample: a business-flavored text containing the markers
"dominate", "competition" and "enemy" with coefficient 2/5 < 1/2 and no
creative-license flag nevertheless gets `reframing_appropriate = false`:
heuristic detection yields `unknown` (never `business`), and for
non-business content reframing fires only below 0.3. -/
theorem c5_business_reframing_counterexample :
    dictHasKey (scanMarkers SEPARATION_MARKERS (lowerStr businessText))
      "dominate" = true ∧
    dictHasKey (scanMarkers SEPARATION_MARKERS (lowerStr businessText))
      "competition" = true ∧
    dictHasKey (scanMarkers SEPARATION_MARKERS (lowerStr businessText))
      "enemy" = true ∧
    engineCoefficient
      (scanMarkers SEPARATION_MARKERS (lowerStr businessText))
      (scanMarkers UNITY_MARKERS (lowerStr businessText)) = 2/5 ∧
    roundTo4 (engineCoefficient
      (scanMarkers SEPARATION_MARKERS (lowerStr businessText))
      (scanMarkers UNITY_MARKERS (lowerStr businessText))) = 2/5 ∧
    (2 : ℚ)/5 < 1/2 ∧
    (contextualizeCoefficient (2/5) businessText none).creative_license_respected =
      false ∧
    (contextualizeCoefficient (2/5) businessText none).reframing_appropriate =
      false := by
  have hs5 : scanMarkers SEPARATION_MARKERS (lowerStr businessText) =
      [("enemy", 1), ("dominate", 1), ("competition", 1)] := by decide
  have hu5 : scanMarkers UNITY_MARKERS (lowerStr businessText) =
      [("love", 2)] := by decide
  have hc5 : engineCoefficient
      [("enemy", 1), ("dominate", 1), ("competition", 1)] [("love", 2)] =
      2/5 := by
    norm_num [engineCoefficient, dictValuesSum]
  have hfil1 : FICTION_INDICATORS.filter
      (fun i => pyContains (lowerStr businessText) i) = [] := by decide
  have hfil2 : HORROR_INDICATORS.filter
      (fun i => pyContains (lowerStr businessText) i) = [] := by decide
  have hfil3 : COMEDY_INDICATORS.filter
      (fun i => pyContains (lowerStr businessText) i) = [] := by decide
  have hfil4 : TECHNICAL_INDICATORS.filter
      (fun i => pyContains (lowerStr businessText) i) = [] := by decide
  have hfil5 : ACADEMIC_INDICATORS.filter
      (fun i => pyContains (lowerStr businessText) i) = [] := by decide
  have hfil6 : ARTISTIC_INDICATORS.filter
      (fun i => pyContains (lowerStr businessText) i) = [] := by decide
  have hsc1 : calculateIndicatorScore (lowerStr businessText)
      FICTION_INDICATORS = 0 := by
    simp only [calculateIndicatorScore, hfil1]
    rw [if_neg (by decide)]
    norm_num
  have hsc2 : calculateIndicatorScore (lowerStr businessText)
      HORROR_INDICATORS = 0 := by
    simp only [calculateIndicatorScore, hfil2]
    rw [if_neg (by decide)]
    norm_num
  have hsc3 : calculateIndicatorScore (lowerStr businessText)
      COMEDY_INDICATORS = 0 := by
    simp only [calculateIndicatorScore, hfil3]
    rw [if_neg (by decide)]
    norm_num
  have hsc4 : calculateIndicatorScore (lowerStr businessText)
      TECHNICAL_INDICATORS = 0 := by
    simp only [calculateIndicatorScore, hfil4]
    rw [if_neg (by decide)]
    norm_num
  have hsc5 : calculateIndicatorScore (lowerStr businessText)
      ACADEMIC_INDICATORS = 0 := by
    simp only [calculateIndicatorScore, hfil5]
    rw [if_neg (by decide)]
    norm_num
  have hsc6 : calculateIndicatorScore (lowerStr businessText)
      ARTISTIC_INDICATORS = 0 := by
    simp only [calculateIndicatorScore, hfil6]
    rw [if_neg (by decide)]
    norm_num
  have hdct5 : detectContentType (lowerStr businessText) =
      (ContentType.unknown, 0) := by
    simp only [detectContentType, hsc1, hsc2, hsc3, hsc4, hsc5, hsc6]
    rw [if_pos (show max (0:ℚ) (max 0 (max 0 (max 0 (max 0 0)))) < 1/10 by
      simp only [max_self]
      norm_num)]
  have hg5 : detectGenre (lowerStr businessText) ContentType.unknown =
      none := by decide
  have hi5 : detectIntent (lowerStr businessText) ContentType.unknown =
      none := by decide
  have hcl5 : hasCreativeLicense ContentType.unknown none = false := by decide
  have hdet5 : detect businessText none =
      ⟨ContentType.unknown, none, none, none, false, 0, none⟩ := by
    show heuristicDetect (lowerStr businessText) =
      ⟨ContentType.unknown, none, none, none, false, 0, none⟩
    simp only [heuristicDetect, hdct5, hg5, hi5, hcl5]
  have hsr5 : shouldSuggestReframing (2/5)
      ⟨ContentType.unknown, none, none, none, false, 0, none⟩ = false := by
    simp only [shouldSuggestReframing]
    rw [if_neg (by simp), if_neg (by decide)]
    simp only [decide_eq_false_iff_not]
    norm_num
  refine ⟨by decide, by decide, by decide, ?_, ?_, by norm_num, ?_, ?_⟩
  · rw [hs5, hu5, hc5]
  · rw [hs5, hu5, hc5, roundTo4_eq_of_mul (2/5) 4000 (by norm_num)]
    norm_num
  · simp only [contextualizeCoefficient, hdet5]
  · simp only [contextualizeCoefficient, hdet5, hsr5]

/-- C5 amended: the reframing policy is as claimed (false under creative
license; business/technical below 0.5; other content below 0.3), but
heuristic detection never yields the business type, so business-flavored
text without an explicit user context falls in the "other content" band and
triggers reframing only below 0.3; an explicit business user context makes
any coefficient below 0.5 trigger reframing with no creative-license flag. -/
theorem c5_reframing_policy_amended (c : ℚ) (text : String)
    (ctx : ContentContext) :
    (ctx.creative_license = true → shouldSuggestReframing c ctx = false) ∧
    (ctx.creative_license = false →
      ((ctx.content_type = ContentType.business ∨
          ctx.content_type = ContentType.technical) →
        (shouldSuggestReframing c ctx = true ↔ c < 1/2)) ∧
      (¬ (ctx.content_type = ContentType.business ∨
          ctx.content_type = ContentType.technical) →
        (shouldSuggestReframing c ctx = true ↔ c < 3/10))) ∧
    (detectContentType text).1 ≠ ContentType.business ∧
    (c < 1/2 →
      (contextualizeCoefficient c text
        (some ⟨some "business", none, none, none⟩)).reframing_appropriate =
        true ∧
      (contextualizeCoefficient c text
        (some ⟨some "business", none, none, none⟩)).creative_license_respected =
        false) := by
  have hdetb : detect text (some ⟨some "business", none, none, none⟩) =
      ⟨ContentType.business, none, none, none, false, 1,
        some ⟨some "business", none, none, none⟩⟩ := rfl
  refine ⟨?_, ?_, ?_, ?_⟩
  · intro h
    simp only [shouldSuggestReframing]
    rw [if_pos h]
  · intro h
    constructor
    · intro hbt
      simp only [shouldSuggestReframing]
      rw [if_neg (by simp [h]), if_pos hbt]
      exact decide_eq_true_iff
    · intro hbt
      simp only [shouldSuggestReframing]
      rw [if_neg (by simp [h]), if_neg hbt]
      exact decide_eq_true_iff
  · simp only [detectContentType]
    split
    · decide
    · dsimp only
      split_ifs <;> decide
  · intro h
    constructor
    · simp only [contextualizeCoefficient, hdetb, shouldSuggestReframing]
      rw [if_neg (by simp), if_pos (Or.inl trivial)]
      exact decide_eq_true h
    · simp only [contextualizeCoefficient, hdetb]

/-- Witness for the amended C5 at coefficient 0 with an explicit business
user context. -/
theorem c5_reframing_policy_amended_witness :
    (contextualizeCoefficient 0 "x"
      (some ⟨some "business", none, none, none⟩)).reframing_appropriate =
      true :=
  ((c5_reframing_policy_amended 0 "x"
    ⟨ContentType.unknown, none, none, none, false, 0, none⟩).2.2.2
      (by norm_num)).1
